import Mathlib

/-!
Verification of the Google Ads conversion-upload node
(`nodes/GoogleAdsConversion/GoogleAdsConversion.node.ts`).

The development shallowly embeds the pure pipeline logic of the node:
string normalization and SHA-256 hashing (`hashString`), the error
classifier (`parseApiError`), the retry policy (`shouldRetry`,
`calculateDelay`, `executeWithRetry`), batch partitioning
(`groupIntoBatches`), partial-failure attribution
(`processBatchResponse`, `extractErrorFromPartialFailure`), customer-id
resolution (`getCustomerId`), payload construction
(`buildConversionPayload`), the timestamp validation fragment of
`validateInputParameters`, and the batch coordinator
(`processBatchItems`).

JavaScript strings are modelled as Lean `String`s; the JS built-ins used
by the source (`toLowerCase`, `toUpperCase`, `trim`, `parseInt`, regex
replaces) are modelled by explicit functions over the underlying
character list, restricted to ASCII case mapping as the node only feeds
them ASCII configuration data.  JS `undefined`/missing object fields are
modelled with `Option`; JS truthiness of numbers (`x || y`) and strings
is modelled by explicit `jsNumOr` / `jsStrOr` helpers in which `0`
respectively `""` count as falsy.
-/

namespace GoogleAdsNode

/-- ASCII whitespace, the characters the JavaScript `trim` removes from the
configuration strings this node handles. -/
def jsIsWs (c : Char) : Bool :=
  c.toNat = 9 || c.toNat = 10 || c.toNat = 11 || c.toNat = 12 ||
    c.toNat = 13 || c.toNat = 32

/-- Model of JS `String.prototype.toLowerCase` at the character level
(ASCII range). -/
def lowerChar (c : Char) : Char :=
  match c with
  | 'A' => 'a' | 'B' => 'b' | 'C' => 'c' | 'D' => 'd' | 'E' => 'e'
  | 'F' => 'f' | 'G' => 'g' | 'H' => 'h' | 'I' => 'i' | 'J' => 'j'
  | 'K' => 'k' | 'L' => 'l' | 'M' => 'm' | 'N' => 'n' | 'O' => 'o'
  | 'P' => 'p' | 'Q' => 'q' | 'R' => 'r' | 'S' => 's' | 'T' => 't'
  | 'U' => 'u' | 'V' => 'v' | 'W' => 'w' | 'X' => 'x' | 'Y' => 'y'
  | 'Z' => 'z'
  | other => other

/-- Model of JS `String.prototype.toUpperCase` at the character level
(ASCII range). -/
def upperChar (c : Char) : Char :=
  match c with
  | 'a' => 'A' | 'b' => 'B' | 'c' => 'C' | 'd' => 'D' | 'e' => 'E'
  | 'f' => 'F' | 'g' => 'G' | 'h' => 'H' | 'i' => 'I' | 'j' => 'J'
  | 'k' => 'K' | 'l' => 'L' | 'm' => 'M' | 'n' => 'N' | 'o' => 'O'
  | 'p' => 'P' | 'q' => 'Q' | 'r' => 'R' | 's' => 'S' | 't' => 'T'
  | 'u' => 'U' | 'v' => 'V' | 'w' => 'W' | 'x' => 'X' | 'y' => 'Y'
  | 'z' => 'Z'
  | other => other

/-- Model of JS `toLowerCase` on whole strings. -/
def jsToLower (s : String) : String := ⟨s.data.map lowerChar⟩

/-- Model of JS `toUpperCase` on whole strings. -/
def jsToUpper (s : String) : String := ⟨s.data.map upperChar⟩

/-- Trim of a character list at both ends. -/
def trimList (l : List Char) : List Char :=
  (((l.dropWhile jsIsWs).reverse).dropWhile jsIsWs).reverse

/-- Model of JS `String.prototype.trim`. -/
def jsTrim (s : String) : String := ⟨trimList s.data⟩

/-- JS `a || b` for possibly-missing strings: `undefined` and `""` are
falsy. -/
def jsStrOr (a : Option String) (b : String) : String :=
  match a with
  | some s => if s = "" then b else s
  | none => b

/-- JS `a || b` for possibly-missing numbers: `undefined` and `0` are
falsy. -/
def jsNumOr (a : Option Nat) (b : Nat) : Nat :=
  match a with
  | some n => if n = 0 then b else n
  | none => b

/-- Digits of a decimal string prefix folded to a number. -/
def digitsToNat (l : List Char) : Nat :=
  l.foldl (fun a c => a * 10 + (c.toNat - 48)) 0

/-- Model of JS `parseInt` on base-10 input: skip leading whitespace,
optional sign, then a maximal run of digits; `none` models `NaN` (no
digits found).  `NaN` and `undefined` behave identically in every use
site of this node (both are falsy and fail `> 0` comparisons), so the
conflation is sound. -/
def jsParseInt (s : String) : Option Int :=
  let l := s.data.dropWhile jsIsWs
  let core : List Char → Option Nat := fun cs =>
    let ds := cs.takeWhile Char.isDigit
    if ds.isEmpty then none else some (digitsToNat ds)
  match l with
  | '-' :: rest => (core rest).map (fun n => -(n : Int))
  | '+' :: rest => (core rest).map (fun n => (n : Int))
  | _ => (core l).map (fun n => (n : Int))


/-! SHA-256, the model of the Node `crypto.createHash` digest

Words are `Nat`s reduced modulo `2 ^ 32`; the message is a byte list. -/

/-- Truncate to a 32-bit word. -/
def w32 (n : Nat) : Nat := n % 4294967296

/-- Rotate a 32-bit word right by `n` positions. -/
def rotr (n x : Nat) : Nat := w32 ((x >>> n) ||| (x <<< (32 - n)))

def sigmaSmall0 (x : Nat) : Nat := (rotr 7 x) ^^^ (rotr 18 x) ^^^ (x >>> 3)

def sigmaSmall1 (x : Nat) : Nat := (rotr 17 x) ^^^ (rotr 19 x) ^^^ (x >>> 10)

def sigmaBig0 (x : Nat) : Nat := (rotr 2 x) ^^^ (rotr 13 x) ^^^ (rotr 22 x)

def sigmaBig1 (x : Nat) : Nat := (rotr 6 x) ^^^ (rotr 11 x) ^^^ (rotr 25 x)

def chFn (x y z : Nat) : Nat := (x &&& y) ^^^ ((x ^^^ 4294967295) &&& z)

def majFn (x y z : Nat) : Nat := (x &&& y) ^^^ (x &&& z) ^^^ (y &&& z)

/-- SHA-256 round constants. -/
def sha256K : List Nat :=
  [1116352408, 1899447441, 3049323471, 3921009573,
   961987163, 1508970993, 2453635748, 2870763221,
   3624381080, 310598401, 607225278, 1426881987,
   1925078388, 2162078206, 2614888103, 3248222580,
   3835390401, 4022224774, 264347078, 604807628,
   770255983, 1249150122, 1555081692, 1996064986,
   2554220882, 2821834349, 2952996808, 3210313671,
   3336571891, 3584528711, 113926993, 338241895,
   666307205, 773529912, 1294757372, 1396182291,
   1695183700, 1986661051, 2177026350, 2456956037,
   2730485921, 2820302411, 3259730800, 3345764771,
   3516065817, 3600352804, 4094571909, 275423344,
   430227734, 506948616, 659060556, 883997877,
   958139571, 1322822218, 1537002063, 1747873779,
   1955562222, 2024104815, 2227730452, 2361852424,
   2428436474, 2756734187, 3204031479, 3329325298]

/-- SHA-256 initial hash value. -/
def sha256H0 : List Nat :=
  [1779033703, 3144134277, 1013904242, 2773480762,
   1359893119, 2600822924, 528734635, 1541459225]

/-- Pack a byte list into big-endian 32-bit words. -/
def bytesToWords : List Nat → List Nat
  | b0 :: b1 :: b2 :: b3 :: rest =>
      (b0 * 16777216 + b1 * 65536 + b2 * 256 + b3) :: bytesToWords rest
  | _ => []

/-- Extend the 16-word message schedule to 64 words.  `acc` holds the
words produced so far in reverse order. -/
def extendSchedule : Nat → List Nat → List Nat
  | 0, acc => acc.reverse
  | k + 1, acc =>
      let wt := w32 (sigmaSmall1 (acc.getD 1 0) + acc.getD 6 0 +
        sigmaSmall0 (acc.getD 14 0) + acc.getD 15 0)
      extendSchedule k (wt :: acc)

/-- Full 64-word message schedule of one block. -/
def messageSchedule (block : List Nat) : List Nat :=
  extendSchedule 48 (bytesToWords block).reverse

/-- One compression round; the state is the 8-word list `[a..h]`. -/
def sha256Round (s : List Nat) (kw : Nat × Nat) : List Nat :=
  let a := s.getD 0 0
  let b := s.getD 1 0
  let c := s.getD 2 0
  let d := s.getD 3 0
  let e := s.getD 4 0
  let f := s.getD 5 0
  let g := s.getD 6 0
  let h := s.getD 7 0
  let t1 := w32 (h + sigmaBig1 e + chFn e f g + kw.1 + kw.2)
  let t2 := w32 (sigmaBig0 a + majFn a b c)
  [w32 (t1 + t2), a, b, c, w32 (d + t1), e, f, g]

/-- Compress one 64-byte block into the running hash. -/
def processBlock (h : List Nat) (block : List Nat) : List Nat :=
  let s := (sha256K.zip (messageSchedule block)).foldl sha256Round h
  (h.zip s).map fun p => w32 (p.1 + p.2)

/-- Split a list into chunks of `n` elements (`n > 0` at all call
sites). -/
def chunkList (n : Nat) (l : List α) : List (List α) :=
  if l.isEmpty then []
  else if _hn : n = 0 then []
  else l.take n :: chunkList n (l.drop n)
termination_by l.length
decreasing_by
  cases l with
  | nil => simp_all
  | cons a t => simp [List.length_drop]; omega

/-- SHA-256 padding: `0x80`, zeros, then the 64-bit big-endian bit
length. -/
def sha256Pad (msg : List Nat) : List Nat :=
  let l := msg.length
  let zeroCount := (119 - l % 64) % 64
  let bitLen := l * 8
  msg ++ [128] ++ List.replicate zeroCount 0 ++
    [56, 48, 40, 32, 24, 16, 8, 0].map (fun s => (bitLen >>> s) % 256)

/-- SHA-256 digest of a byte list, as 32 bytes. -/
def sha256Bytes (msg : List Nat) : List Nat :=
  let final := (chunkList 64 (sha256Pad msg)).foldl processBlock sha256H0
  final.flatMap fun w =>
    [(w >>> 24) % 256, (w >>> 16) % 256, (w >>> 8) % 256, w % 256]

/-- Lower-case hex digit of a nibble. -/
def hexDigit (n : Nat) : Char :=
  "0123456789abcdef".data.getD n '0'

/-- Hex encoding of a byte list. -/
def hexOfBytes (bs : List Nat) : String :=
  ⟨bs.flatMap fun b => [hexDigit (b / 16), hexDigit (b % 16)]⟩

/-- UTF-8 encoding of one character (model of the Node "utf8" input
encoding). -/
def utf8EncodeChar (c : Char) : List Nat :=
  let n := c.toNat
  if n < 128 then [n]
  else if n < 2048 then [192 ||| (n >>> 6), 128 ||| (n &&& 63)]
  else if n < 65536 then
    [224 ||| (n >>> 12), 128 ||| ((n >>> 6) &&& 63), 128 ||| (n &&& 63)]
  else
    [240 ||| (n >>> 18), 128 ||| ((n >>> 12) &&& 63),
     128 ||| ((n >>> 6) &&& 63), 128 ||| (n &&& 63)]

/-- UTF-8 encoding of a string. -/
def utf8Encode (s : String) : List Nat := s.data.flatMap utf8EncodeChar

/-- Hex-encoded SHA-256 digest of a string, the model of
`createHash("sha256").update(s, "utf8").digest("hex")`. -/
def sha256HexOf (s : String) : String := hexOfBytes (sha256Bytes (utf8Encode s))

/-- Model of `hashString` (GoogleAdsConversion.node.ts:1831-1841): empty or
whitespace-only input yields the empty string; otherwise the input is
lower-cased, trimmed, and SHA-256 hashed to hex. -/
def hashString (input : String) : String :=
  if input = "" || jsTrim input = "" then ""
  else sha256HexOf (jsTrim (jsToLower input))

/-! Error taxonomy: the four custom error classes, lines 13-49 -/

/-- The typed errors of the node.  The first four constructors model the
classes `GoogleAdsAuthenticationError`, `GoogleAdsValidationError`,
`GoogleAdsApiError` and `GoogleAdsRateLimitError`; `operationError`
models a plain n8n `NodeOperationError` (thrown by a few validation
branches of the payload builder). -/
inductive TypedError where
  | authenticationError (message : String)
  | validationError (message : String)
  | apiError (message : String) (httpCode : Nat) (apiErrorCode : Option String)
  | rateLimitError (message : String) (retryAfter : Option Int)
  | operationError (message : String)
deriving DecidableEq, Repr

/-- Constructor of `GoogleAdsAuthenticationError` (line 14): prefixes the
message. -/
def mkAuthenticationError (message : String) : TypedError :=
  .authenticationError ("Authentication Error: " ++ message)

/-- Constructor of `GoogleAdsValidationError` (line 21): prefixes the
message and appends the optional field name. -/
def mkValidationError (message : String) (field : Option String) : TypedError :=
  let fieldInfo := match field with
    | some f => " (Field: " ++ f ++ ")"
    | none => ""
  .validationError ("Validation Error: " ++ message ++ fieldInfo)

/-- Constructor of `GoogleAdsApiError` (line 29). -/
def mkApiError (message : String) (httpCode : Nat) (apiErrorCode : Option String) :
    TypedError :=
  .apiError ("Google Ads API Error: " ++ message) httpCode apiErrorCode

/-- Constructor of `GoogleAdsRateLimitError` (line 41). -/
def mkRateLimitError (message : String) (retryAfter : Option Int) : TypedError :=
  .rateLimitError ("Rate Limit Error: " ++ message) retryAfter

def TypedError.isAuthenticationError : TypedError → Bool
  | .authenticationError _ => true
  | _ => false

def TypedError.isValidationError : TypedError → Bool
  | .validationError _ => true
  | _ => false

def TypedError.isApiError : TypedError → Bool
  | .apiError _ _ _ => true
  | _ => false

def TypedError.isRateLimitError : TypedError → Bool
  | .rateLimitError _ _ => true
  | _ => false

/-- Whether the error is one of the four `GoogleAds*` error kinds. -/
def TypedError.isTypedKind (e : TypedError) : Bool :=
  e.isAuthenticationError || e.isValidationError || e.isApiError ||
    e.isRateLimitError

/-- The `name` property of the JS error object. -/
def TypedError.jsName : TypedError → String
  | .authenticationError _ => "GoogleAdsAuthenticationError"
  | .validationError _ => "GoogleAdsValidationError"
  | .apiError _ _ _ => "GoogleAdsApiError"
  | .rateLimitError _ _ => "GoogleAdsRateLimitError"
  | .operationError _ => "NodeOperationError"

/-- The `message` property of the JS error object. -/
def TypedError.jsMessage : TypedError → String
  | .authenticationError m => m
  | .validationError m => m
  | .apiError m _ _ => m
  | .rateLimitError m _ => m
  | .operationError m => m

/-! Raw transport errors and the error classifier (`parseApiError`,
lines 1126-1252) -/

/-- The `errorCode` object inside a parsed 400 response body
(`err.errorCode.fieldError`). -/
structure ErrCodeObj where
  fieldError : Option String
deriving DecidableEq, Repr

/-- One element of `location.fieldPathElements` in an API error body. -/
structure FieldPathElem where
  fieldName : Option String
  index : Option Nat
deriving DecidableEq, Repr

/-- The `location` object of an API error body item. -/
structure ErrLocation where
  fieldPathElements : Option (List FieldPathElem)
deriving DecidableEq, Repr

/-- One entry of `detail.errors` in a parsed 400 response body. -/
structure ApiErrItem where
  message : Option String
  errorCode : Option ErrCodeObj
  location : Option ErrLocation
deriving DecidableEq, Repr

/-- One entry of `responseBody.error.details`. -/
structure ApiErrDetail where
  errors : Option (List ApiErrItem)
deriving DecidableEq, Repr

/-- The `responseBody.error` object of a Google Ads REST error payload. -/
structure BodyError where
  message : Option String
  details : Option (List ApiErrDetail)
deriving DecidableEq, Repr

/-- A parsed response body (`error.response?.data`). -/
structure ResponseBody where
  error : Option BodyError
deriving DecidableEq, Repr

/-- Runtime class of a thrown value, as observed by the `instanceof`
checks in `shouldRetry`. -/
inductive RawErrorKind where
  | plainError
  | authInstance
  | validationInstance
  | apiInstance
  | rateLimitInstance
deriving DecidableEq, Repr

/-- The raw error object a failed operation throws: the fields the retry
engine and the classifier read from it.  Missing JS properties are
`none`. -/
structure RawError where
  httpCode : Option Nat
  status : Option Nat
  code : Option String
  errno : Option String
  message : Option String
  retryAfterHeader : Option String
  body : Option ResponseBody
  kind : RawErrorKind
  retryAfter : Option Int
deriving DecidableEq, Repr

/-- Model of `error.httpCode || error.status || 0` (lines 993, 1068, 1128). -/
def effHttpCode (e : RawError) : Nat :=
  jsNumOr e.httpCode (jsNumOr e.status 0)

/-- Model of `error.code || error.errno || ""` (line 999). -/
def effErrorCode (e : RawError) : String :=
  jsStrOr e.code (jsStrOr e.errno "")

/-- Model of `retryAfter ? parseInt(retryAfter) : undefined` applied to
the retry-after response header (lines 1215-1219). -/
def parsedRetryAfterSeconds (e : RawError) : Option Int :=
  match e.retryAfterHeader with
  | some s => if s = "" then none else jsParseInt s
  | none => none

/-- Model of `JSON.stringify(responseBody)` restricted to the modelled body shape
(only reached when `responseBody.error` is absent). -/
def stringifyBody : Option ResponseBody → String
  | none => "undefined"
  | some _ => "\x7b\x7d"

/-- The field-level detail strings collected from a 400 response body
(lines 1180-1200). -/
def collect400Details (ds : Option (List ApiErrDetail)) : List String :=
  match ds with
  | none => []
  | some l => l.flatMap fun d =>
      match d.errors with
      | none => []
      | some errs => errs.flatMap fun err =>
          (match err.message with
            | some m => if m = "" then [] else [m]
            | none => []) ++
          (match err.errorCode with
            | some ec =>
                match ec.fieldError with
                | some fe => if fe = "" then [] else ["Field Error: " ++ fe]
                | none => []
            | none => []) ++
          (match err.location with
            | some loc =>
                match loc.fieldPathElements with
                | some fpes =>
                    ["Field: " ++
                      String.intercalate "." (fpes.map fun p => jsStrOr p.fieldName "")]
                | none => []
            | none => [])

/-- The enriched 400 error message (lines 1160-1208). -/
def build400ErrorMessage (e : RawError) : String :=
  let base := "Bad request to Google Ads API"
  match e.body with
  | some body =>
      match body.error with
      | some be =>
          let msg0 := match be.message with
            | some m => if m = "" then base else m
            | none => base
          let details := collect400Details be.details
          if details.isEmpty then msg0
          else msg0 ++ " | Details: " ++ String.intercalate " | " details
      | none =>
          "Bad request - please check your parameters. Response: " ++
            stringifyBody (some body)
  | none =>
      "Bad request - please check your parameters. Response: " ++
        stringifyBody none

/-- Model of `buildDetailedAuthErrorMessage` (lines 1257-1306): the remediation
text attached to 403 errors; its content depends only on the configured
account type. -/
def buildDetailedAuthErrorMessage (accountType : String) : String :=
  let baseMessage :=
    "Access denied to Google Ads API. This is typically a permissions or authentication issue."
  let commonHead :=
    ["**Common Solutions:**",
     "1. **Re-authenticate**: Your OAuth2 token may have expired. Reconnect your Google Ads credentials in n8n.",
     "2. **Check Developer Token**: Ensure your Google Ads Developer Token is valid and approved for production use.",
     "3. **Verify Account Access**: Make sure the authenticated Google account has access to the target Google Ads account."]
  let accountPart :=
    if accountType = "manager" then
      ["4. **Manager Account Setup**: For manager accounts, ensure:",
       "   - The authenticated account is the manager account",
       "   - The selected managed account exists and is accessible",
       "   - The manager account has proper permissions to the managed account"]
    else
      ["4. **Account Type**: If you\x27re using a manager account, change the account type to \"Manager Account (MCC)\"."]
  let commonTail :=
    ["5. **API Access**: Verify that your Google Cloud project has the Google Ads API enabled.",
     "6. **Billing**: Ensure your Google Ads account has active billing if required.",
     "\n**Debugging Steps:**",
     "- Enable debug mode to see detailed request information",
     "- Check the Google Ads account ID in your credentials matches the target account",
     "- Test with a simple query first before uploading conversions"]
  baseMessage ++ "\n\n" ++
    String.intercalate "\n" (commonHead ++ accountPart ++ commonTail)

/-- Model of `parseApiError` (lines 1126-1252): classify a raw error by its
effective HTTP status.  `accountType` models the node parameter read by
the 403 message builder. -/
def parseApiError (accountType : String) (e : RawError) : TypedError :=
  let httpCode := effHttpCode e
  if httpCode = 403 then
    mkApiError (buildDetailedAuthErrorMessage accountType) httpCode
      (some "PERMISSION_DENIED")
  else if httpCode = 401 then
    mkAuthenticationError
      "Authentication failed. Please re-authenticate your Google Ads OAuth2 credentials. The access token may have expired or been revoked."
  else if httpCode = 400 then
    mkValidationError (build400ErrorMessage e) none
  else if httpCode = 429 then
    mkRateLimitError "Rate limit exceeded. Please slow down your requests."
      (parsedRetryAfterSeconds e)
  else if httpCode ≥ 500 then
    mkApiError
      ("Google Ads API server error (" ++ toString httpCode ++ "). Please try again later.")
      httpCode (some "SERVER_ERROR")
  else
    mkApiError
      ("Google Ads API Error: " ++ jsStrOr e.message "Unknown Google Ads API error")
      httpCode (some "UNKNOWN")

/-! Retry engine (`getRetryConfig`, `shouldRetry`, `calculateDelay`,
`executeWithRetry`, lines 964-1121) -/

/-- The retry configuration record (lines 967-981).  Delay values are
rationals (JS numbers). -/
structure RetryConfig where
  maxRetries : Nat
  baseDelayMs : ℚ
  maxDelayMs : ℚ
  retryableStatusCodes : List Nat
  retryableErrors : List String
deriving DecidableEq, Repr

/-- Model of `getRetryConfig` (lines 974-980). -/
def getRetryConfig : RetryConfig where
  maxRetries := 3
  baseDelayMs := 1000
  maxDelayMs := 30000
  retryableStatusCodes := [429, 500, 502, 503, 504]
  retryableErrors := ["ECONNRESET", "ENOTFOUND", "ECONNREFUSED", "ETIMEDOUT"]

/-- Model of `shouldRetry` (lines 986-1023). -/
def shouldRetry (error : RawError) (retryAttempt : Nat) (config : RetryConfig) :
    Bool :=
  if retryAttempt ≥ config.maxRetries then false
  else
    let httpCode := effHttpCode error
    if config.retryableStatusCodes.contains httpCode then true
    else
      let errorCode := effErrorCode error
      if config.retryableErrors.contains errorCode then true
      else if error.kind = .rateLimitInstance then true
      else if error.kind = .authInstance || error.kind = .validationInstance then
        false
      else if httpCode ≥ 500 then true
      else false

/-- The term `baseDelay * (2 ^ retryAttempt)` (line 1035). -/
def exponentialDelay (config : RetryConfig) (retryAttempt : Nat) : ℚ :=
  config.baseDelayMs * 2 ^ retryAttempt

/-- The jitter term `exponentialDelay * 0.25 * (Math.random() * 2 - 1)`
(line 1038); `rand` stands for the `Math.random()` draw in `[0, 1)`. -/
def jitterOf (config : RetryConfig) (retryAttempt : Nat) (rand : ℚ) : ℚ :=
  exponentialDelay config retryAttempt * (1 / 4) * (rand * 2 - 1)

/-- The term `delayWithJitter` (line 1039). -/
def delayWithJitter (config : RetryConfig) (retryAttempt : Nat) (rand : ℚ) : ℚ :=
  exponentialDelay config retryAttempt + jitterOf config retryAttempt rand

/-- The exponential-backoff branch of `calculateDelay` (lines 1034-1042):
jittered delay clamped to `[baseDelayMs, maxDelayMs]`. -/
def backoffDelay (config : RetryConfig) (retryAttempt : Nat) (rand : ℚ) : ℚ :=
  min (max (delayWithJitter config retryAttempt rand) config.baseDelayMs)
    config.maxDelayMs

/-- Model of `calculateDelay` (lines 1028-1043).  `retryAfter` is the optional
retry-after hint on the error (seconds); `none` covers both `undefined`
and `NaN`. -/
def calculateDelay (retryAttempt : Nat) (config : RetryConfig)
    (retryAfter : Option ℚ) (rand : ℚ) : ℚ :=
  match retryAfter with
  | some ra =>
      if 0 < ra then min (ra * 1000) config.maxDelayMs
      else backoffDelay config retryAttempt rand
  | none => backoffDelay config retryAttempt rand

/-- The attempt loop of `executeWithRetry` (lines 1057-1117): run the
operation at the given attempt index; on failure retry while
`attempt < maxRetries && shouldRetry(...)`.  Returns the outcome of the
final attempt together with the number of times the operation was
invoked.  `op n` is the outcome the wrapped operation would produce on
its `n`-th invocation. -/
def runAttempts (op : Nat → Except RawError α) (config : RetryConfig)
    (attempt : Nat) : Except RawError α × Nat :=
  match op attempt with
  | .ok a => (.ok a, 1)
  | .error e =>
      if attempt < config.maxRetries ∧ shouldRetry e attempt config = true then
        let r := runAttempts op config (attempt + 1)
        (r.1, r.2 + 1)
      else
        (.error e, 1)
termination_by config.maxRetries - attempt
decreasing_by omega

/-- Model of `executeWithRetry` (lines 1048-1121): run the attempt loop with the
fixed `getRetryConfig` and, if it ends in failure, throw
`parseApiError(lastError)`.  The second component counts operation
invocations. -/
def executeWithRetry (accountType : String) (op : Nat → Except RawError α) :
    Except TypedError α × Nat :=
  let r := runAttempts op getRetryConfig 0
  match r.1 with
  | .ok a => (.ok a, r.2)
  | .error e => (.error (parseApiError accountType e), r.2)

/-! Batch partitioning: `groupIntoBatches`, lines 2353-2359 -/

/-- Model of `groupIntoBatches`: slice the list into consecutive chunks of
`batchSize`.  The JS loop does not terminate for `batchSize = 0`; the
model returns `[]` there, and every statement about it assumes
`0 < batchSize` (the caller clamps the size to `[1, 2000]`). -/
def groupIntoBatches (items : List α) (batchSize : Nat) : List (List α) :=
  if items.isEmpty then []
  else if batchSize = 0 then []
  else items.take batchSize :: groupIntoBatches (items.drop batchSize) batchSize
termination_by items.length
decreasing_by
  cases items with
  | nil => simp_all
  | cons a t => simp [List.length_drop]; omega

/-! Conversion payloads (shapes built by `buildConversionPayload`,
lines 1902-2108) -/

/-- The consent object (lines 2044-2052). -/
structure ConsentObj where
  adUserData : Option String
  adPersonalization : Option String
deriving DecidableEq, Repr

/-- The `addressInfo` block of an enhanced-conversion identifier
(lines 1882-1894). -/
structure AddressInfo where
  hashedFirstName : Option String
  hashedLastName : Option String
  hashedStreetAddress : Option String
  hashedCity : Option String
  hashedState : Option String
  hashedPostalCode : Option String
  countryCode : Option String
deriving DecidableEq, Repr

/-- One entry of the `userIdentifiers` array (lines 1867-1894). -/
inductive UserIdentifier where
  | hashedEmail (value : String)
  | hashedPhoneNumber (value : String)
  | addressInfo (info : AddressInfo)
deriving DecidableEq, Repr

/-- The conversion record assembled by `buildConversionPayload`; optional
JSON fields are `Option`. -/
structure Conversion where
  conversionAction : String
  conversionDateTime : String
  conversionValue : Option ℚ
  currencyCode : Option String
  orderId : Option String
  consent : Option ConsentObj
  gclid : Option String
  gbraid : Option String
  wbraid : Option String
  userIdentifiers : Option (List UserIdentifier)
deriving DecidableEq, Repr

/-! Batch responses and partial-failure attribution
(`processBatchResponse` lines 2655-2724, `extractErrorFromPartialFailure`
lines 2729-2753) -/

/-- One entry of the upstream `results` array of a batch upload
response. -/
structure UploadResultEntry where
  conversionAction : Option String
  conversionDateTime : Option String
  gclid : Option String
deriving DecidableEq, Repr

/-- One entry of `detail.errors` inside a `partialFailureError`. -/
structure PfErrItem where
  message : Option String
  errorCode : Option String
  location : Option ErrLocation
deriving DecidableEq, Repr

/-- One entry of `partialFailureError.details`. -/
structure PfDetail where
  errors : Option (List PfErrItem)
deriving DecidableEq, Repr

/-- The `partialFailureError` object of a batch upload response. -/
structure PartialFailureErrorObj where
  message : Option String
  details : Option (List PfDetail)
deriving DecidableEq, Repr

/-- A batch upload response as read by `processBatchResponse`. -/
structure BatchResponse where
  results : Option (List UploadResultEntry)
  partialFailureError : Option PartialFailureErrorObj
deriving DecidableEq, Repr

/-- Whether the partial-failure error list names batch position `i`
(the `hasError` expression, lines 2674-2686): some detail has some error
whose `location.fieldPathElements` contains an element with
`index === i`. -/
def pfIndexHit (pfe : PartialFailureErrorObj) (i : Nat) : Bool :=
  match pfe.details with
  | none => false
  | some details => details.any fun d =>
      match d.errors with
      | none => false
      | some errs => errs.any fun err =>
          match err.location with
          | none => false
          | some loc =>
              match loc.fieldPathElements with
              | none => false
              | some fpes => fpes.any fun p => p.index = some i

/-- The `hasError` flag for batch position `i` of a response. -/
def batchHasErrorAt (batchResponse : BatchResponse) (i : Nat) : Bool :=
  match batchResponse.partialFailureError with
  | none => false
  | some pfe => pfIndexHit pfe i

/-- The inner loop of `extractErrorFromPartialFailure` (lines 2737-2750):
first error entry whose field path mentions the conversion index. -/
def findPfError (details : List PfDetail) (conversionIndex : Nat) : Option String :=
  details.findSome? fun d =>
    match d.errors with
    | none => none
    | some errs => errs.findSome? fun err =>
        match err.location with
        | none => none
        | some loc =>
            match loc.fieldPathElements with
            | none => none
            | some fpes =>
                if fpes.any fun p => p.index = some conversionIndex then
                  some (jsStrOr err.message
                    (jsStrOr err.errorCode "Unknown conversion error"))
                else none

/-- Model of `extractErrorFromPartialFailure` (lines 2729-2753). -/
def extractErrorFromPartialFailure (partialFailureError : PartialFailureErrorObj)
    (conversionIndex : Nat) : String :=
  match partialFailureError.details with
  | none => jsStrOr partialFailureError.message "Unknown batch error"
  | some details =>
      match findPfError details conversionIndex with
      | some s => s
      | none => jsStrOr partialFailureError.message "Unknown batch error"

/-- An input item delivered by the host.  Its JSON payload is opaque to
the coordinator; it is modelled by an identifier. -/
structure InputItem where
  json : Nat
deriving DecidableEq, Repr

/-- One per-item result record emitted by the coordinator.  The three
result shapes of the source (pre-batch validation failure, batch-level
failure, per-position batch result) are unified; fields a shape does not
set are `none`. -/
structure ResultRecord where
  success : Bool
  message : Option String
  operation : Option String
  conversion : Option Conversion
  itemIndex : Nat
  batchNumber : Option Nat
  batchPosition : Option Nat
  originalItem : Option Nat
  conversionResult : Option UploadResultEntry
  error : Option String
  errorType : Option String
  batchIndex : Option Nat
deriving DecidableEq, Repr

/-- Model of `processBatchResponse` (lines 2655-2724): one result record per batch
position, cross-referencing the partial-failure list. -/
def processBatchResponse (batchResponse : BatchResponse) (batch : List Conversion)
    (batchItemIndices : List Nat) (originalItems : List InputItem)
    (batchNumber : Nat) : List ResultRecord :=
  let resultsArr := match batchResponse.results with
    | some l => l
    | none => []
  (List.range batch.length).map fun i =>
    let itemIndex := batchItemIndices.getD i 0
    let hasError := batchHasErrorAt batchResponse i
    { success := !hasError
      message := some (if hasError then "Conversion failed validation or processing"
        else if batch.length = 1 ∧ (resultsArr.get? 0).isSome then
          "Conversion uploaded successfully"
        else "Conversion processed in batch")
      operation := some "uploadClickConversion"
      conversion := batch.get? i
      itemIndex := itemIndex
      batchNumber := some batchNumber
      batchPosition := some (i + 1)
      originalItem := (originalItems.get? itemIndex).map InputItem.json
      conversionResult := if !hasError then resultsArr.get? i else none
      error := if hasError then
          match batchResponse.partialFailureError with
          | some pfe => some (extractErrorFromPartialFailure pfe i)
          | none => none
        else none
      errorType := none
      batchIndex := none }

/-! Customer-id resolution and payload construction
(`getConversionActionValue` lines 942-955, `getCustomerId` lines
2113-2187, `buildUserIdentifiers` lines 1846-1897,
`buildConversionPayload` lines 1902-2108) -/

/-- A node parameter that may be a resourceLocator object, a plain
string, or something else. -/
inductive NodeParamValue where
  | obj (value : Option String)
  | str (s : String)
  | other
deriving DecidableEq, Repr

/-- Model of `getConversionActionValue` (lines 942-955): the `.value` of a
resourceLocator object when truthy, a plain string as-is, `""`
otherwise. -/
def getConversionActionValue : NodeParamValue → String
  | .obj (some v) => if v = "" then "" else v
  | .obj none => ""
  | .str s => s
  | .other => ""

/-- The digit filter `customerId.replace(non-digits, empty)` (line 2161). -/
def stripNonDigits (s : String) : String := ⟨s.data.filter Char.isDigit⟩

/-- Model of `getCustomerId` (lines 2113-2187).  `credCustomerId` is
`credentials.customerId` (`none` when the credential field is absent,
which the `!customerId` check of the source treats like `""`). -/
def getCustomerId (accountType : String) (managedAccount : NodeParamValue)
    (credCustomerId : Option String) : Except TypedError String :=
  let chosen : Except TypedError String :=
    if accountType = "manager" then
      match managedAccount with
      | .obj (some v) =>
          if v = "" then
            .error (mkAuthenticationError
              "Managed account must be selected when using manager account type")
          else .ok v
      | .obj none =>
          .error (mkAuthenticationError
            "Managed account must be selected when using manager account type")
      | .str s => .ok s
      | .other =>
          .error (mkAuthenticationError
            "Managed account must be selected when using manager account type")
    else
      .ok (match credCustomerId with
        | some s => s
        | none => "")
  match chosen with
  | .error e => .error e
  | .ok customerId =>
      if customerId = "" then
        .error (mkAuthenticationError
          (if accountType = "manager" then
            "Managed account ID is missing or not selected"
          else "Customer ID is missing in credentials"))
      else
        let sanitizedCustomerId := stripNonDigits customerId
        if sanitizedCustomerId = "" then
          .error (mkAuthenticationError "Customer ID contains no valid digits")
        else .ok sanitizedCustomerId

/-- A `\w` character: alphanumeric or underscore. -/
def isWordChar (c : Char) : Bool := c.isAlphanum || c = '_'

/-- The word-character filter applied to the conversion action id
(line 1997). -/
def sanitizeConversionAction (s : String) : String :=
  ⟨s.data.filter fun c => isWordChar c || c = '-'⟩

/-- JS `startsWith` on the modelled strings. -/
def jsStartsWith (s pre : String) : Bool := pre.data.isPrefixOf s.data

/-- The regex `/^customers\/\d+\/conversionActions\/\w+$/` (line 1968). -/
def matchesResourceNameFormat (s : String) : Bool :=
  let l := s.data
  let p1 := "customers/".data
  if p1.isPrefixOf l then
    let rest := l.drop p1.length
    let ds := rest.takeWhile Char.isDigit
    let rest2 := rest.drop ds.length
    let p2 := "/conversionActions/".data
    !ds.isEmpty && p2.isPrefixOf rest2 &&
      (let w := rest2.drop p2.length
       !w.isEmpty && w.all isWordChar)
  else false

/-- The per-item node parameters read by the payload builder.  String
parameters carry their node-level defaults (`""`, `"USD"`, `"UNKNOWN"`)
when unset.  `conversionDateTime` is the output of
`convertDateTimeToString` on the raw parameter (that conversion falls
back to the current time and is I/O-dependent, so its result is taken as
input here). -/
structure BuildParams where
  identificationMethod : String
  conversionAction : NodeParamValue
  conversionDateTime : String
  conversionValue : ℚ
  currencyCode : String
  orderId : String
  adUserDataConsent : String
  adPersonalizationConsent : String
  gclid : String
  gbraid : String
  wbraid : String
  email : String
  phoneNumber : String
  firstName : String
  lastName : String
  streetAddress : String
  city : String
  state : String
  postalCode : String
  countryCode : String
  accountType : String
  managedAccount : NodeParamValue
  credCustomerId : Option String
deriving DecidableEq, Repr

/-- Model of `buildUserIdentifiers` (lines 1846-1897): hashed email, hashed phone,
then an address block if any address component is present; the country
code is upper-cased, not hashed. -/
def buildUserIdentifiers (p : BuildParams) : List UserIdentifier :=
  (if p.email ≠ "" then [.hashedEmail (hashString p.email)] else []) ++
  (if p.phoneNumber ≠ "" then [.hashedPhoneNumber (hashString p.phoneNumber)]
   else []) ++
  (if p.firstName ≠ "" ∨ p.lastName ≠ "" ∨ p.streetAddress ≠ "" ∨ p.city ≠ "" ∨
      p.state ≠ "" ∨ p.postalCode ≠ "" ∨ p.countryCode ≠ "" then
    [.addressInfo
      { hashedFirstName :=
          if p.firstName ≠ "" then some (hashString p.firstName) else none
        hashedLastName :=
          if p.lastName ≠ "" then some (hashString p.lastName) else none
        hashedStreetAddress :=
          if p.streetAddress ≠ "" then some (hashString p.streetAddress) else none
        hashedCity := if p.city ≠ "" then some (hashString p.city) else none
        hashedState := if p.state ≠ "" then some (hashString p.state) else none
        hashedPostalCode :=
          if p.postalCode ≠ "" then some (hashString p.postalCode) else none
        countryCode :=
          if p.countryCode ≠ "" then some (jsToUpper p.countryCode) else none }]
   else [])

/-- Model of `buildConversionPayload` (lines 1902-2108). -/
def buildConversionPayload (p : BuildParams) : Except TypedError Conversion :=
  let conversionAction := getConversionActionValue p.conversionAction
  if conversionAction = "" then
    .error (mkValidationError "Conversion Action ID is required"
      (some "conversionAction"))
  else
    match getCustomerId p.accountType p.managedAccount p.credCustomerId with
    | .error e => .error e
    | .ok customerId =>
        let fmtRes : Except TypedError String :=
          if jsStartsWith conversionAction "customers/" then
            if !matchesResourceNameFormat conversionAction then
              .error (mkValidationError
                ("Invalid conversion action resource name format: " ++
                  conversionAction ++
                  ". Expected format: customers/\x7bcustomer_id\x7d/conversionActions/\x7bconversion_action_id\x7d")
                (some "conversionAction"))
            else .ok conversionAction
          else
            let sanitized := sanitizeConversionAction conversionAction
            if sanitized = "" then
              .error (mkValidationError
                "Conversion Action ID contains no valid characters"
                (some "conversionAction"))
            else
              .ok ("customers/" ++ customerId ++ "/conversionActions/" ++ sanitized)
        match fmtRes with
        | .error e => .error e
        | .ok formattedConversionAction =>
            let base : Conversion :=
              { conversionAction := formattedConversionAction
                conversionDateTime := p.conversionDateTime
                conversionValue := none
                currencyCode := none
                orderId := none
                consent := none
                gclid := none
                gbraid := none
                wbraid := none
                userIdentifiers := none }
            let c1 := if 0 < p.conversionValue then
                { base with
                  conversionValue := some p.conversionValue
                  currencyCode := some p.currencyCode }
              else base
            let c2 := if p.orderId ≠ "" then { c1 with orderId := some p.orderId }
              else c1
            let c3 := if p.adUserDataConsent ≠ "UNKNOWN" ∨
                p.adPersonalizationConsent ≠ "UNKNOWN" then
                let cObj : ConsentObj :=
                  { adUserData := if p.adUserDataConsent ≠ "UNKNOWN" then
                      some p.adUserDataConsent
                    else none
                    adPersonalization := if p.adPersonalizationConsent ≠ "UNKNOWN" then
                      some p.adPersonalizationConsent
                    else none }
                { c2 with consent := some cObj }
              else c2
            if p.identificationMethod = "gclid" then
              if p.gclid = "" then
                .error (.operationError
                  "GCLID is required when using GCLID identification method")
              else .ok { c3 with gclid := some p.gclid }
            else if p.identificationMethod = "gbraid" then
              if p.gbraid = "" then
                .error (.operationError
                  "GBRAID is required when using GBRAID identification method")
              else .ok { c3 with gbraid := some p.gbraid }
            else if p.identificationMethod = "wbraid" then
              if p.wbraid = "" then
                .error (.operationError
                  "WBRAID is required when using WBRAID identification method")
              else .ok { c3 with wbraid := some p.wbraid }
            else if p.identificationMethod = "enhanced" then
              let userIdentifiers := buildUserIdentifiers p
              if userIdentifiers.isEmpty then
                .error (.operationError
                  "At least one user identifier (email, phone, or address info) is required for enhanced conversions")
              else .ok { c3 with userIdentifiers := some userIdentifiers }
            else
              .error (.operationError
                ("Unsupported identification method: " ++ p.identificationMethod))

/-! Timestamp validation (the date fragment of
`validateInputParameters`, lines 1546-1576)

`new Date(conversionDateTime).getTime()` is modelled as an optional
epoch-millisecond value (`none` for `NaN`, i.e. unparseable input). -/

/-- The body of the `try` block: throw on unparseable input, throw a
future-timestamp `GoogleAdsValidationError` when the parsed time is
strictly after now, otherwise pass (the 90-day case only logs a
warning).  The interpolated timestamp values of the future-date message
are elided; the surrounding `catch` discards that message anyway. -/
def validateDateTimeTryBlock (dateMs : Option Int) (nowMs : Int) :
    Except TypedError Unit :=
  match dateMs with
  | none => .error (.operationError "Invalid date")
  | some t =>
      if nowMs < t then
        .error (mkValidationError
          "Conversion date time cannot be in the future. Google Ads only accepts past conversion events."
          (some "conversionDateTime"))
      else .ok ()

/-- The date-validation fragment of `validateInputParameters` (lines
1546-1576): any throw inside the `try` block - unparseable input or a
future timestamp - is caught and re-raised as the format
`GoogleAdsValidationError`. -/
def checkConversionDateTime (dateMs : Option Int) (nowMs : Int) :
    Except TypedError Unit :=
  match validateDateTimeTryBlock dateMs nowMs with
  | .ok _ => .ok ()
  | .error _ =>
      .error (mkValidationError
        "Invalid conversion date time format. Please use YYYY-MM-DD HH:MM:SS+TZ format (e.g., 2024-01-15 14:30:00+00:00)"
        (some "conversionDateTime"))

/-! The batch coordinator: `processBatchItems`, lines 2483-2650.

Parameter reading and payload building per item are I/O against the
host; their per-item outcomes enter the model as a list pairing each
input item with the result of `validateInputParameters` +
`buildConversionPayload` for it.  Likewise each batch upload
(`processBatch`, an HTTP call through `executeWithRetry`) enters as a
function from batch index to its final outcome. -/

/-- The failure record pushed for an item whose validation or build threw
(lines 2541-2549). -/
def buildFailureRecord (i : Nat) (item : InputItem) (e : TypedError) :
    ResultRecord where
  success := false
  message := none
  operation := none
  conversion := none
  itemIndex := i
  batchNumber := none
  batchPosition := none
  originalItem := some item.json
  conversionResult := none
  error := some e.jsMessage
  errorType := some e.jsName
  batchIndex := none

/-- The build loop (lines 2522-2551): validate and build every item,
collecting failure records (continue mode) or aborting on the first
error (fail-fast), and pairing each built conversion with its original
item index. -/
def buildPhase (itemOutcomes : List (InputItem × Except TypedError Conversion))
    (failFast : Bool) (i : Nat) :
    Except TypedError (List ResultRecord × List (Nat × Conversion)) :=
  match itemOutcomes with
  | [] => .ok ([], [])
  | (item, o) :: rest =>
      match o with
      | .ok c =>
          match buildPhase rest failFast (i + 1) with
          | .error e => .error e
          | .ok (fails, valids) => .ok (fails, (i, c) :: valids)
      | .error e =>
          if failFast then .error e
          else
            match buildPhase rest failFast (i + 1) with
            | .error e2 => .error e2
            | .ok (fails, valids) =>
                .ok (buildFailureRecord i item e :: fails, valids)

/-- The per-item failure records pushed when a whole batch fails in
continue mode (lines 2619-2631). -/
def batchFailureRecords (batch : List Conversion) (batchItemIndices : List Nat)
    (originalItems : List InputItem) (e : TypedError) (batchNumber : Nat) :
    List ResultRecord :=
  (List.range batch.length).map fun i =>
    let itemIndex := batchItemIndices.getD i 0
    { success := false
      message := none
      operation := none
      conversion := none
      itemIndex := itemIndex
      batchNumber := none
      batchPosition := none
      originalItem := (originalItems.get? itemIndex).map InputItem.json
      conversionResult := none
      error := some ("Batch " ++ toString batchNumber ++ " failed: " ++ e.jsMessage)
      errorType := some e.jsName
      batchIndex := some batchNumber }

/-- The batch loop (lines 2571-2639): upload batch `k`; on success append
its per-position records, on failure abort (fail-fast) or append
per-item failure records. -/
def runBatches (upload : Nat → Except TypedError BatchResponse) (failFast : Bool)
    (originalItems : List InputItem) (batches : List (List Conversion))
    (idxBatches : List (List Nat)) (k : Nat) :
    Except TypedError (List ResultRecord) :=
  match batches, idxBatches with
  | [], _ => .ok []
  | b :: bs, idxs :: idxTail =>
      match upload k with
      | .ok resp =>
          match runBatches upload failFast originalItems bs idxTail (k + 1) with
          | .error e => .error e
          | .ok rest =>
              .ok (processBatchResponse resp b idxs originalItems (k + 1) ++ rest)
      | .error e =>
          if failFast then .error e
          else
            match runBatches upload failFast originalItems bs idxTail (k + 1) with
            | .error e2 => .error e2
            | .ok rest =>
                .ok (batchFailureRecords b idxs originalItems e (k + 1) ++ rest)
  | b :: bs, [] =>
      match upload k with
      | .ok resp =>
          match runBatches upload failFast originalItems bs [] (k + 1) with
          | .error e => .error e
          | .ok rest =>
              .ok (processBatchResponse resp b [] originalItems (k + 1) ++ rest)
      | .error e =>
          if failFast then .error e
          else
            match runBatches upload failFast originalItems bs [] (k + 1) with
            | .error e2 => .error e2
            | .ok rest =>
                .ok (batchFailureRecords b [] originalItems e (k + 1) ++ rest)

/-- Model of `processBatchItems` with batch processing enabled (lines 2483-2650):
clamp the batch size to `[1, 2000]`, build all items, group conversions
and their original indices into batches with the same size, then run the
batch loop.  `mode` is the `batchProcessingMode` parameter. -/
def processBatchItems
    (itemOutcomes : List (InputItem × Except TypedError Conversion))
    (upload : Nat → Except TypedError BatchResponse) (batchSize : Nat)
    (mode : String) : Except TypedError (List ResultRecord) :=
  let actualBatchSize := min (max batchSize 1) 2000
  let failFast := mode = "failFast"
  match buildPhase itemOutcomes failFast 0 with
  | .error e => .error e
  | .ok (failRecords, valids) =>
      let conversions := valids.map Prod.snd
      let itemIndexMap := valids.map Prod.fst
      if conversions.isEmpty then .ok failRecords
      else
        let batches := groupIntoBatches conversions actualBatchSize
        let idxBatches := groupIntoBatches itemIndexMap actualBatchSize
        match runBatches upload failFast (itemOutcomes.map Prod.fst) batches
            idxBatches 0 with
        | .error e => .error e
        | .ok batchRecords => .ok (failRecords ++ batchRecords)

/-! ## Theorems -/

/-- Concatenating the batches in order gives back the input list
(shared helper). -/
theorem groupIntoBatches_flatten {α : Type} (b : Nat) (hb : 0 < b) (l : List α) :
    (groupIntoBatches l b).flatten = l := by
  generalize hn : l.length = n
  induction n using Nat.strong_induction_on generalizing l with
  | _ n ih =>
    rw [groupIntoBatches]
    by_cases he : l.isEmpty
    · simp_all [List.isEmpty_iff]
    · have hb0 : ¬ b = 0 := by omega
      simp only [he, hb0, Bool.false_eq_true, if_false, List.flatten_cons]
      have hlen : (l.drop b).length < n := by
        have hne : l ≠ [] := by simpa [List.isEmpty_iff] using he
        have : 0 < l.length := List.length_pos.mpr hne
        simp [List.length_drop]; omega
      rw [ih (l.drop b).length (by omega) (l.drop b) rfl]
      exact List.take_append_drop b l

/-- C5: for every list of built conversion records and every positive
batch size, `groupIntoBatches` preserves original relative order:
concatenating all batches in order reconstructs the original input list
exactly, so every original index appears in exactly one batch at exactly
one position. -/
theorem groupIntoBatches_partition_invariant (records : List Conversion)
    (batchSize : Nat) (hb : 0 < batchSize) :
    (groupIntoBatches records batchSize).flatten = records :=
  groupIntoBatches_flatten batchSize hb records

/-- A sample conversion record built from a gclid. -/
def sampleConversion (g : String) : Conversion where
  conversionAction := "customers/123/conversionActions/456"
  conversionDateTime := "2024-01-15 14:30:00+00:00"
  conversionValue := none
  currencyCode := none
  orderId := none
  consent := none
  gclid := some g
  gbraid := none
  wbraid := none
  userIdentifiers := none

theorem groupIntoBatches_partition_invariant_witness :
    0 < 2 ∧
      (groupIntoBatches [sampleConversion "a", sampleConversion "b",
        sampleConversion "c"] 2).flatten =
        [sampleConversion "a", sampleConversion "b", sampleConversion "c"] :=
  ⟨by decide,
    groupIntoBatches_partition_invariant
      [sampleConversion "a", sampleConversion "b", sampleConversion "c"] 2
      (by decide)⟩

/-- C7: a parsed conversion timestamp strictly after the current time
makes the date-validation fragment raise a `GoogleAdsValidationError`
(the format message, because the future-timestamp throw is swallowed by
the surrounding catch), while a timestamp equal to the current time or
in the past passes the check; the rejection is a strict inequality. -/
theorem futureTimestamp_strict_rejection (t nowMs : Int) :
    (nowMs < t →
      checkConversionDateTime (some t) nowMs =
        .error (mkValidationError
          "Invalid conversion date time format. Please use YYYY-MM-DD HH:MM:SS+TZ format (e.g., 2024-01-15 14:30:00+00:00)"
          (some "conversionDateTime")) ∧
      ∀ e, checkConversionDateTime (some t) nowMs = .error e →
        e.isValidationError = true) ∧
    (t ≤ nowMs → checkConversionDateTime (some t) nowMs = .ok ()) := by
  constructor
  · intro hf
    have hrun : checkConversionDateTime (some t) nowMs =
        .error (mkValidationError
          "Invalid conversion date time format. Please use YYYY-MM-DD HH:MM:SS+TZ format (e.g., 2024-01-15 14:30:00+00:00)"
          (some "conversionDateTime")) := by
      simp [checkConversionDateTime, validateDateTimeTryBlock, hf]
    refine ⟨hrun, ?_⟩
    intro e he
    rw [hrun] at he
    have : e = mkValidationError
        "Invalid conversion date time format. Please use YYYY-MM-DD HH:MM:SS+TZ format (e.g., 2024-01-15 14:30:00+00:00)"
        (some "conversionDateTime") := by
      exact (Except.error.injEq _ _).mp he.symm
    rw [this]
    rfl
  · intro hp
    have hnl : ¬ nowMs < t := not_lt.mpr hp
    simp [checkConversionDateTime, validateDateTimeTryBlock, hnl]

theorem futureTimestamp_strict_rejection_witness :
    checkConversionDateTime (some 1) 0 =
      .error (mkValidationError
        "Invalid conversion date time format. Please use YYYY-MM-DD HH:MM:SS+TZ format (e.g., 2024-01-15 14:30:00+00:00)"
        (some "conversionDateTime")) ∧
    checkConversionDateTime (some 5) 5 = .ok () :=
  ⟨((futureTimestamp_strict_rejection 1 0).1 (by norm_num)).1,
    (futureTimestamp_strict_rejection 5 5).2 (by norm_num)⟩

/-- The three input items of the partial-failure attribution scenario. -/
def demoItems3 : List InputItem := [⟨10⟩, ⟨11⟩, ⟨12⟩]

/-- The three-record batch of the partial-failure attribution scenario. -/
def demoBatch3 : List Conversion :=
  [sampleConversion "a", sampleConversion "b", sampleConversion "c"]

/-- A batch response whose partial-failure error names field-path index
1. -/
def demoBatchResponse : BatchResponse where
  results := some
    [{ conversionAction := some "customers/123/conversionActions/456"
       conversionDateTime := some "2024-01-15 14:30:00+00:00"
       gclid := some "a" },
     { conversionAction := none
       conversionDateTime := none
       gclid := none },
     { conversionAction := some "customers/123/conversionActions/456"
       conversionDateTime := some "2024-01-15 14:30:00+00:00"
       gclid := some "c" }]
  partialFailureError := some
    { message := some "Some conversions failed"
      details := some
        [{ errors := some
            [{ message := some "Conversion has an invalid gclid"
               errorCode := some "INVALID_GCLID"
               location := some
                 { fieldPathElements := some
                     [{ fieldName := some "conversions", index := some 1 }] } }] }] }

/-- C6: for a batch of 3 records whose partial-failure error list reports
field-path index 1, `processBatchResponse` marks exactly batch position
1 failed, with the error message extracted for that position, and
positions 0 and 2 success. -/
theorem partialFailure_attribution_demo :
    (processBatchResponse demoBatchResponse demoBatch3 [0, 1, 2] demoItems3 1).map
        (fun r => (r.success, r.error, r.itemIndex)) =
      [(true, none, 0), (false, some "Conversion has an invalid gclid", 1),
        (true, none, 2)] := by
  decide

/-- C3: with the default configuration (baseDelay 1000 ms, maxDelay
30000 ms), for every retry attempt `k ≤ 3` and every `Math.random` draw
in `[0, 1)`: a positive retry-after hint yields
`min(hint * 1000, maxDelay)` (a non-positive hint falls back to
backoff); otherwise the jittered delay lies within ±25% of
`baseDelay * 2 ^ k` before clamping, and the clamped delay lies in
`[baseDelay, maxDelay]`. -/
theorem calculateDelay_bounds (k : Nat) (hk : k ≤ 3) (rand : ℚ)
    (hr0 : 0 ≤ rand) (hr1 : rand < 1) :
    getRetryConfig.baseDelayMs = 1000 ∧ getRetryConfig.maxDelayMs = 30000 ∧
    (∀ v : ℚ, 0 < v →
      calculateDelay k getRetryConfig (some v) rand = min (v * 1000) 30000) ∧
    (∀ v : ℚ, v ≤ 0 →
      calculateDelay k getRetryConfig (some v) rand =
        backoffDelay getRetryConfig k rand) ∧
    |delayWithJitter getRetryConfig k rand - exponentialDelay getRetryConfig k| ≤
      exponentialDelay getRetryConfig k / 4 ∧
    exponentialDelay getRetryConfig k = 1000 * 2 ^ k ∧
    1000 ≤ calculateDelay k getRetryConfig none rand ∧
    calculateDelay k getRetryConfig none rand ≤ 30000 := by
  have hE : (0 : ℚ) < 1000 * 2 ^ k := by positivity
  refine ⟨rfl, rfl, ?_, ?_, ?_, rfl, ?_, ?_⟩
  · intro v hv
    simp [calculateDelay, hv, getRetryConfig]
  · intro v hv
    have : ¬ (0 : ℚ) < v := not_lt.mpr hv
    simp [calculateDelay, this]
  · have hjit : delayWithJitter getRetryConfig k rand -
        exponentialDelay getRetryConfig k = jitterOf getRetryConfig k rand := by
      simp [delayWithJitter]
    rw [hjit]
    have hexp : exponentialDelay getRetryConfig k = 1000 * 2 ^ k := rfl
    rw [abs_le]
    constructor
    · simp only [jitterOf, hexp]
      nlinarith [hE, hr0, hr1]
    · simp only [jitterOf, hexp]
      nlinarith [hE, hr0, hr1]
  · show (1000 : ℚ) ≤ backoffDelay getRetryConfig k rand
    unfold backoffDelay
    refine le_min (le_trans ?_ (le_max_right _ _)) (by norm_num [getRetryConfig])
    exact le_refl _
  · show backoffDelay getRetryConfig k rand ≤ (30000 : ℚ)
    unfold backoffDelay
    exact min_le_right _ _

theorem calculateDelay_bounds_witness :
    calculateDelay 0 getRetryConfig (some 5) 0 = min ((5 : ℚ) * 1000) 30000 ∧
    (1000 : ℚ) ≤ calculateDelay 0 getRetryConfig none 0 ∧
    calculateDelay 0 getRetryConfig none 0 ≤ 30000 :=
  ⟨(calculateDelay_bounds 0 (by norm_num) 0 (by norm_num) (by norm_num)).2.2.1 5
      (by norm_num),
    (calculateDelay_bounds 0 (by norm_num) 0 (by norm_num) (by norm_num)).2.2.2.2.2.2.1,
    (calculateDelay_bounds 0 (by norm_num) 0 (by norm_num) (by norm_num)).2.2.2.2.2.2.2⟩

/-- A raw error carrying HTTP status 400 together with a retryable
transport error code. -/
def transportResetError400 : RawError where
  httpCode := some 400
  status := none
  code := some "ECONNRESET"
  errno := none
  message := some "read ECONNRESET"
  retryAfterHeader := none
  body := none
  kind := .plainError
  retryAfter := none

/-- C2 counterexample: an error whose HTTP status is 400 but which
carries the transport code ECONNRESET is retried at attempt 0, because
`shouldRetry` checks the transport-code list before any status
reasoning; the claimed "always false regardless of attempt count" for
status 400 fails on it. -/
theorem shouldRetry_status400_counterexample :
    effHttpCode transportResetError400 = 400 ∧
    shouldRetry transportResetError400 0 getRetryConfig = true := by
  decide

/-- C2 (amended): for every error whose effective HTTP status is in
{400, 401, 403, 404} and which carries no retryable transport error code
and is not a `GoogleAdsRateLimitError` instance, `shouldRetry` is false
regardless of the attempt count; for every error whose effective status
is in {429, 500, 502, 503, 504}, `shouldRetry` is true while attempts
remain (attempt < maxRetries = 3) and false once attempts are
exhausted. -/
theorem shouldRetry_status_table (e : RawError) (attempt : Nat) :
    ((effHttpCode e = 400 ∨ effHttpCode e = 401 ∨ effHttpCode e = 403 ∨
        effHttpCode e = 404) →
      getRetryConfig.retryableErrors.contains (effErrorCode e) = false →
      e.kind ≠ .rateLimitInstance →
      shouldRetry e attempt getRetryConfig = false) ∧
    ((effHttpCode e = 429 ∨ effHttpCode e = 500 ∨ effHttpCode e = 502 ∨
        effHttpCode e = 503 ∨ effHttpCode e = 504) →
      (attempt < 3 → shouldRetry e attempt getRetryConfig = true) ∧
      (3 ≤ attempt → shouldRetry e attempt getRetryConfig = false)) := by
  constructor
  · intro hst hcode hkind
    have hs : getRetryConfig.retryableStatusCodes.contains (effHttpCode e) =
        false := by
      rcases hst with h | h | h | h <;> rw [h] <;> decide
    have h500 : ¬ effHttpCode e ≥ 500 := by
      rcases hst with h | h | h | h <;> omega
    by_cases ha : attempt ≥ getRetryConfig.maxRetries
    · simp [shouldRetry, ha]
    · cases hk : e.kind <;>
        simp_all [shouldRetry, ha, hs, hcode, h500]
  · intro hst
    have hs : getRetryConfig.retryableStatusCodes.contains (effHttpCode e) =
        true := by
      rcases hst with h | h | h | h | h <;> rw [h] <;> decide
    constructor
    · intro hlt
      have ha : ¬ attempt ≥ getRetryConfig.maxRetries := by
        simp only [getRetryConfig]; omega
      have hmem : effHttpCode e ∈ getRetryConfig.retryableStatusCodes := by
        simpa using hs
      simp [shouldRetry, ha, hmem]
    · intro hge
      have ha : attempt ≥ getRetryConfig.maxRetries := by
        simp only [getRetryConfig]; omega
      simp [shouldRetry, ha]

/-- A plain raw error carrying only HTTP status 503. -/
def plainServerError503 : RawError where
  httpCode := some 503
  status := none
  code := none
  errno := none
  message := some "Service Unavailable"
  retryAfterHeader := none
  body := none
  kind := .plainError
  retryAfter := none

/-- A plain raw error carrying only HTTP status 401. -/
def plainAuthError401 : RawError where
  httpCode := some 401
  status := none
  code := none
  errno := none
  message := some "Unauthorized"
  retryAfterHeader := none
  body := none
  kind := .plainError
  retryAfter := none

theorem shouldRetry_status_table_witness :
    shouldRetry plainAuthError401 0 getRetryConfig = false ∧
    shouldRetry plainServerError503 2 getRetryConfig = true ∧
    shouldRetry plainServerError503 3 getRetryConfig = false :=
  ⟨(shouldRetry_status_table plainAuthError401 0).1 (by decide) (by decide)
      (by decide),
    ((shouldRetry_status_table plainServerError503 2).2 (by decide)).1
      (by decide),
    ((shouldRetry_status_table plainServerError503 3).2 (by decide)).2
      (by decide)⟩

/-- A plain raw error carrying only HTTP status 403. -/
def plainForbiddenError403 : RawError where
  httpCode := some 403
  status := none
  code := none
  errno := none
  message := some "Forbidden"
  retryAfterHeader := none
  body := none
  kind := .plainError
  retryAfter := none

/-- A plain raw error carrying only HTTP status 404. -/
def plainNotFoundError404 : RawError where
  httpCode := some 404
  status := none
  code := none
  errno := none
  message := some "Not Found"
  retryAfterHeader := none
  body := none
  kind := .plainError
  retryAfter := none

/-- C1 counterexample: `parseApiError` maps a status-403 error to
`GoogleAdsApiError` (code PERMISSION_DENIED), not to
`GoogleAdsAuthenticationError`, and maps status 404 to
`GoogleAdsApiError` with code UNKNOWN, not to
`GoogleAdsValidationError`, contradicting the claimed 403 and 404
rows. -/
theorem parseApiError_403_404_counterexample :
    effHttpCode plainForbiddenError403 = 403 ∧
    (parseApiError "regular" plainForbiddenError403).isAuthenticationError =
      false ∧
    (parseApiError "regular" plainForbiddenError403).isApiError = true ∧
    effHttpCode plainNotFoundError404 = 404 ∧
    (parseApiError "regular" plainNotFoundError404).isValidationError = false ∧
    (parseApiError "regular" plainNotFoundError404).isApiError = true := by
  refine ⟨rfl, rfl, rfl, rfl, rfl, rfl⟩

/-- C1 (amended): `parseApiError` maps deterministically by effective
HTTP status: 400 to ValidationError with the message enriched from the
parsed body, 401 to AuthenticationError, 403 to ApiError with code
PERMISSION_DENIED and the remediation-hint message, 429 to
RateLimitError with retryAfterSeconds parsed from the retry-after header
when present, any 5xx to ApiError carrying the HTTP code, and any other
status - including 404 - to ApiError with code UNKNOWN. -/
theorem parseApiError_status_mapping (accountType : String) (e : RawError) :
    (effHttpCode e = 400 →
      parseApiError accountType e =
        mkValidationError (build400ErrorMessage e) none) ∧
    (effHttpCode e = 401 →
      (parseApiError accountType e).isAuthenticationError = true) ∧
    (effHttpCode e = 403 →
      parseApiError accountType e =
        mkApiError (buildDetailedAuthErrorMessage accountType) 403
          (some "PERMISSION_DENIED")) ∧
    (effHttpCode e = 429 →
      parseApiError accountType e =
        mkRateLimitError "Rate limit exceeded. Please slow down your requests."
          (parsedRetryAfterSeconds e)) ∧
    (500 ≤ effHttpCode e →
      parseApiError accountType e =
        mkApiError
          ("Google Ads API server error (" ++ toString (effHttpCode e) ++
            "). Please try again later.")
          (effHttpCode e) (some "SERVER_ERROR")) ∧
    (effHttpCode e ≠ 400 → effHttpCode e ≠ 401 → effHttpCode e ≠ 403 →
      effHttpCode e ≠ 429 → effHttpCode e < 500 →
      parseApiError accountType e =
        mkApiError
          ("Google Ads API Error: " ++
            jsStrOr e.message "Unknown Google Ads API error")
          (effHttpCode e) (some "UNKNOWN")) := by
  refine ⟨?_, ?_, ?_, ?_, ?_, ?_⟩
  · intro h
    simp [parseApiError, h]
  · intro h
    simp [parseApiError, h, mkAuthenticationError, TypedError.isAuthenticationError]
  · intro h
    simp [parseApiError, h]
  · intro h
    simp [parseApiError, h]
  · intro h
    have n400 : effHttpCode e ≠ 400 := by omega
    have n401 : effHttpCode e ≠ 401 := by omega
    have n403 : effHttpCode e ≠ 403 := by omega
    have n429 : effHttpCode e ≠ 429 := by omega
    simp [parseApiError, n400, n401, n403, n429, h]
  · intro n400 n401 n403 n429 hlt
    have h5 : ¬ effHttpCode e ≥ 500 := by omega
    simp [parseApiError, n400, n401, n403, n429, h5]

/-- A raw 429 error with a retry-after header. -/
def rateLimitedError429 : RawError where
  httpCode := some 429
  status := none
  code := none
  errno := none
  message := some "Too Many Requests"
  retryAfterHeader := some "5"
  body := none
  kind := .plainError
  retryAfter := none

theorem parseApiError_status_mapping_witness :
    parseApiError "regular" rateLimitedError429 =
      mkRateLimitError "Rate limit exceeded. Please slow down your requests."
        (parsedRetryAfterSeconds rateLimitedError429) :=
  (parseApiError_status_mapping "regular" rateLimitedError429).2.2.2.1
    (by decide)

/-- The classifier `parseApiError` always returns one of the four `GoogleAds*` error
kinds (shared helper). -/
theorem parseApiError_isTypedKind (accountType : String) (e : RawError) :
    (parseApiError accountType e).isTypedKind = true := by
  simp only [parseApiError]
  repeat' first | rfl | split

/-- The attempt loop invokes the operation at most
`maxRetries + 1 - attempt` times from attempt index `attempt` (or just
once, when called past the budget). -/
theorem runAttempts_invocations {α : Type} (op : Nat → Except RawError α)
    (cfg : RetryConfig) (a : Nat) :
    (runAttempts op cfg a).2 ≤ cfg.maxRetries + 1 - a ∨
      (runAttempts op cfg a).2 = 1 := by
  generalize hf : cfg.maxRetries - a = f
  induction f generalizing a with
  | zero =>
    rw [runAttempts]
    cases hop : op a with
    | ok v => simp
    | error e =>
        have hc : ¬ (a < cfg.maxRetries ∧ shouldRetry e a cfg = true) := by
          rintro ⟨h1, -⟩; omega
        simp [hc]
  | succ f ih =>
    rw [runAttempts]
    cases hop : op a with
    | ok v => simp
    | error e =>
        dsimp only
        by_cases hc : a < cfg.maxRetries ∧ shouldRetry e a cfg = true
        · rw [if_pos hc]
          have hrec := ih (a + 1) (by omega)
          have hlt := hc.1
          dsimp only
          left
          rcases hrec with h | h <;> omega
        · simp [hc]

/-- The second component of `executeWithRetry` is the attempt-loop
invocation count. -/
theorem executeWithRetry_snd {α : Type} (accountType : String)
    (op : Nat → Except RawError α) :
    (executeWithRetry accountType op).2 = (runAttempts op getRetryConfig 0).2 := by
  cases hr : (runAttempts op getRetryConfig 0).1 <;>
    simp [executeWithRetry, hr]

/-- When the attempt loop ends in success, `executeWithRetry` returns
that success. -/
theorem executeWithRetry_fst_ok {α : Type} (accountType : String)
    (op : Nat → Except RawError α) (v : α)
    (hr : (runAttempts op getRetryConfig 0).1 = .ok v) :
    (executeWithRetry accountType op).1 = .ok v := by
  simp [executeWithRetry, hr]

/-- When the attempt loop ends in failure, `executeWithRetry` throws the
parsed last error. -/
theorem executeWithRetry_fst_error {α : Type} (accountType : String)
    (op : Nat → Except RawError α) (raw : RawError)
    (hr : (runAttempts op getRetryConfig 0).1 = .error raw) :
    (executeWithRetry accountType op).1 =
      .error (parseApiError accountType raw) := by
  simp [executeWithRetry, hr]

/-- C4: `executeWithRetry` invokes the wrapped operation at most 4 times
(1 initial try plus maxRetries = 3 retries), and whenever it terminates
in failure the raised error is `parseApiError` applied to the last raw
error - one of the four typed error kinds - never the raw transport
error itself. -/
theorem executeWithRetry_budget_and_classification {α : Type}
    (accountType : String) (op : Nat → Except RawError α) :
    (executeWithRetry accountType op).2 ≤ 4 ∧
    (∀ te, (executeWithRetry accountType op).1 = .error te →
      (∃ raw, (runAttempts op getRetryConfig 0).1 = .error raw ∧
        te = parseApiError accountType raw) ∧ te.isTypedKind = true) := by
  constructor
  · rw [executeWithRetry_snd]
    have h := runAttempts_invocations op getRetryConfig 0
    have hm : getRetryConfig.maxRetries = 3 := rfl
    rw [hm] at h
    omega
  · intro te hte
    cases hr : (runAttempts op getRetryConfig 0).1 with
    | ok v =>
        rw [executeWithRetry_fst_ok accountType op v hr] at hte
        simp at hte
    | error raw =>
        rw [executeWithRetry_fst_error accountType op raw hr] at hte
        simp only [Except.error.injEq] at hte
        refine ⟨⟨raw, rfl, hte.symm⟩, ?_⟩
        rw [← hte]
        exact parseApiError_isTypedKind accountType raw

theorem executeWithRetry_budget_witness :
    (executeWithRetry "regular"
      (fun _ => (.error plainAuthError401 : Except RawError Nat))).2 ≤ 4 ∧
    ((∃ raw, (runAttempts
        (fun _ => (.error plainAuthError401 : Except RawError Nat))
        getRetryConfig 0).1 = .error raw ∧
      parseApiError "regular" plainAuthError401 =
        parseApiError "regular" raw) ∧
      (parseApiError "regular" plainAuthError401).isTypedKind = true) := by
  have hsr : shouldRetry plainAuthError401 0 getRetryConfig = false := by decide
  have hrun : runAttempts
      (fun _ => (.error plainAuthError401 : Except RawError Nat))
      getRetryConfig 0 = (.error plainAuthError401, 1) := by
    rw [runAttempts]
    simp [hsr]
  have hfst : (executeWithRetry "regular"
      (fun _ => (.error plainAuthError401 : Except RawError Nat))).1 =
      .error (parseApiError "regular" plainAuthError401) :=
    executeWithRetry_fst_error "regular" _ _ (by rw [hrun])
  exact ⟨(executeWithRetry_budget_and_classification "regular" _).1,
    (executeWithRetry_budget_and_classification "regular" _).2 _ hfst⟩

/-- Lower-casing after upper-casing agrees with lower-casing (ASCII). -/
theorem lowerChar_upperChar (c : Char) : lowerChar (upperChar c) = lowerChar c := by
  unfold upperChar
  split <;> rfl

/-- Upper-casing preserves whitespace-ness. -/
theorem jsIsWs_upperChar (c : Char) : jsIsWs (upperChar c) = jsIsWs c := by
  unfold upperChar
  split <;> rfl

theorem dropWhile_ws_cons_space (l : List Char) :
    List.dropWhile jsIsWs (' ' :: l) = List.dropWhile jsIsWs l := by
  have h : jsIsWs ' ' = true := rfl
  simp [List.dropWhile_cons, h]

theorem dropWhile_ws_append_space (l : List Char) :
    List.dropWhile jsIsWs (l ++ [' ']) =
      if (List.dropWhile jsIsWs l).isEmpty then []
      else List.dropWhile jsIsWs l ++ [' '] := by
  induction l with
  | nil => rfl
  | cons c t ih =>
      by_cases h : jsIsWs c
      · simpa [List.dropWhile_cons, h] using ih
      · simp [List.dropWhile_cons, h]

theorem trimList_cons_space (l : List Char) :
    trimList (' ' :: l) = trimList l := by
  unfold trimList
  rw [dropWhile_ws_cons_space]

theorem trimList_append_space (l : List Char) :
    trimList (l ++ [' ']) = trimList l := by
  unfold trimList
  rw [dropWhile_ws_append_space]
  by_cases h : (List.dropWhile jsIsWs l).isEmpty
  · rw [if_pos h]
    rw [List.isEmpty_iff] at h
    rw [h]
  · rw [if_neg h]
    rw [List.reverse_append]
    simp only [List.reverse_singleton, List.singleton_append]
    rw [dropWhile_ws_cons_space]

theorem dropWhile_ws_map_preserving (f : Char → Char)
    (hf : ∀ c, jsIsWs (f c) = jsIsWs c) (l : List Char) :
    List.dropWhile jsIsWs (l.map f) = (List.dropWhile jsIsWs l).map f := by
  induction l with
  | nil => rfl
  | cons c t ih =>
      by_cases h : jsIsWs c
      · have hfc : jsIsWs (f c) = true := by rw [hf]; exact h
        simp [List.dropWhile_cons, h, hfc, ih]
      · have hfc : jsIsWs (f c) = false := by rw [hf]; simpa using h
        simp [List.dropWhile_cons, h, hfc]

theorem trimList_map_preserving (f : Char → Char)
    (hf : ∀ c, jsIsWs (f c) = jsIsWs c) (l : List Char) :
    trimList (l.map f) = (trimList l).map f := by
  unfold trimList
  rw [dropWhile_ws_map_preserving f hf, ← List.map_reverse,
    dropWhile_ws_map_preserving f hf, ← List.map_reverse]

theorem map_lowerChar_upperChar (l : List Char) :
    (l.map upperChar).map lowerChar = l.map lowerChar := by
  rw [List.map_map]
  induction l with
  | nil => rfl
  | cons c t ih => simp [Function.comp, lowerChar_upperChar, ih]

/-- C8: `hashString` returns `""` for every empty or whitespace-only
input; for every input that is not empty nor whitespace-only it returns
the hex-encoded SHA-256 digest of the lower-cased, trimmed input; it is
deterministic, and it is invariant under surrounding whitespace plus
upper-casing: `hashString (" " ++ jsToUpper s ++ " ") = hashString s`. -/
theorem hashString_contract (s t : String)
    (ht : t = "" ∨ jsTrim t = "")
    (hs1 : s ≠ "") (hs2 : jsTrim s ≠ "") :
    hashString t = "" ∧
    hashString s = sha256HexOf (jsTrim (jsToLower s)) ∧
    hashString s = hashString s ∧
    hashString (" " ++ jsToUpper s ++ " ") = hashString s := by
  have hTrimData : trimList s.data ≠ [] := by
    intro hnil
    apply hs2
    show jsTrim s = ""
    unfold jsTrim
    rw [hnil]
  refine ⟨?_, ?_, rfl, ?_⟩
  · rcases ht with h | h <;> simp [hashString, h]
  · simp [hashString, hs1, hs2]
  · set u := " " ++ jsToUpper s ++ " " with hu
    have hudata : u.data = ' ' :: s.data.map upperChar ++ [' '] := rfl
    have hutrim : trimList u.data = (trimList s.data).map upperChar := by
      rw [hudata]
      rw [show (' ' :: s.data.map upperChar ++ [' ']) =
        ' ' :: (s.data.map upperChar ++ [' ']) from rfl]
      rw [trimList_cons_space, trimList_append_space]
      exact trimList_map_preserving upperChar jsIsWs_upperChar s.data
    have hu1 : u ≠ "" := by
      intro h
      have := congrArg String.data h
      rw [hudata] at this
      simp at this
    have hu2 : jsTrim u ≠ "" := by
      intro h
      have hdat := congrArg String.data h
      have : trimList u.data = [] := hdat
      rw [hutrim] at this
      exact hTrimData (List.map_eq_nil_iff.mp this)
    have hlow : jsTrim (jsToLower u) = jsTrim (jsToLower s) := by
      unfold jsTrim jsToLower
      apply congrArg String.mk
      show trimList (u.data.map lowerChar) = trimList (s.data.map lowerChar)
      rw [hudata]
      rw [show ((' ' :: s.data.map upperChar ++ [' ']).map lowerChar) =
        ' ' :: ((s.data.map upperChar).map lowerChar ++ [' ']) from by
          simp [lowerChar]]
      rw [trimList_cons_space, trimList_append_space, map_lowerChar_upperChar]
    simp only [hashString, hu1, hu2, hs1, hs2, if_neg, Bool.or_self]
    rw [hlow]

theorem hashString_contract_witness :
    hashString "  " = "" ∧
    hashString "a" = sha256HexOf (jsTrim (jsToLower "a")) ∧
    hashString "a" = hashString "a" ∧
    hashString (" " ++ jsToUpper "a" ++ " ") = hashString "a" :=
  hashString_contract "a" "  " (Or.inr (by decide)) (by decide) (by decide)

/-- Build parameters whose credential customer id contains no digits. -/
def badCustomerParams : BuildParams where
  identificationMethod := "gclid"
  conversionAction := .str "AW-123"
  conversionDateTime := "2024-01-15 14:30:00+00:00"
  conversionValue := 0
  currencyCode := "USD"
  orderId := ""
  adUserDataConsent := "UNKNOWN"
  adPersonalizationConsent := "UNKNOWN"
  gclid := "testGclid"
  gbraid := ""
  wbraid := ""
  email := ""
  phoneNumber := ""
  firstName := ""
  lastName := ""
  streetAddress := ""
  city := ""
  state := ""
  postalCode := ""
  countryCode := ""
  accountType := "regular"
  managedAccount := .other
  credCustomerId := some "abc"

/-- C9 counterexample: when customer-id sanitization strips every
character, the payload builder fails with
`GoogleAdsAuthenticationError`, not with `GoogleAdsApiError` as
claimed. -/
theorem buildConversionPayload_noDigits_counterexample :
    stripNonDigits "abc" = "" ∧
    buildConversionPayload badCustomerParams =
      .error (mkAuthenticationError "Customer ID contains no valid digits") ∧
    (mkAuthenticationError "Customer ID contains no valid digits").isApiError =
      false := by
  refine ⟨rfl, rfl, rfl⟩

/-- C9 (amended): the payload builder fails with an
`AuthenticationError` ("Customer ID contains no valid digits") when
account-identifier sanitization strips all characters of the resolved
(non-empty) customer id, in both the regular-account path (id from the
credential) and the manager-account path (id from the managed-account
selection). -/
theorem buildConversionPayload_noDigits (p : BuildParams) (c : String)
    (hca : getConversionActionValue p.conversionAction ≠ "")
    (hc : c ≠ "") (hdig : stripNonDigits c = "") :
    (p.accountType ≠ "manager" → p.credCustomerId = some c →
      buildConversionPayload p =
        .error (mkAuthenticationError "Customer ID contains no valid digits")) ∧
    (p.accountType = "manager" → p.managedAccount = .str c →
      buildConversionPayload p =
        .error (mkAuthenticationError "Customer ID contains no valid digits")) := by
  constructor
  · intro hmgr hcred
    have hcust : getCustomerId p.accountType p.managedAccount p.credCustomerId =
        .error (mkAuthenticationError "Customer ID contains no valid digits") := by
      unfold getCustomerId
      simp [hmgr, hcred, hc, hdig]
    unfold buildConversionPayload
    simp [hca, hcust]
  · intro hmgr hsel
    have hcust : getCustomerId p.accountType p.managedAccount p.credCustomerId =
        .error (mkAuthenticationError "Customer ID contains no valid digits") := by
      unfold getCustomerId
      simp [hmgr, hsel, hc, hdig]
    unfold buildConversionPayload
    simp [hca, hcust]

theorem buildConversionPayload_noDigits_witness :
    buildConversionPayload badCustomerParams =
      .error (mkAuthenticationError "Customer ID contains no valid digits") :=
  (buildConversionPayload_noDigits badCustomerParams "abc" (by decide)
      (by decide) (by decide)).1 (by decide) (by decide)

/-- In continue mode the build loop never aborts, and the item indices of
its failure records together with the indices of its valid conversions
are a permutation of the processed index range. -/
theorem buildPhase_ok
    (itemOutcomes : List (InputItem × Except TypedError Conversion)) (i : Nat) :
    ∃ fails valids, buildPhase itemOutcomes false i = .ok (fails, valids) ∧
      (fails.map ResultRecord.itemIndex ++ valids.map Prod.fst).Perm
        (List.range' i itemOutcomes.length) := by
  induction itemOutcomes generalizing i with
  | nil => exact ⟨[], [], rfl, by simp⟩
  | cons hd rest ih =>
      obtain ⟨f, v, hrec, hperm⟩ := ih (i + 1)
      obtain ⟨item, o⟩ := hd
      cases o with
      | ok c =>
          refine ⟨f, (i, c) :: v, ?_, ?_⟩
          · simp [buildPhase, hrec]
          · simp only [List.map_cons, List.length_cons, List.range'_succ]
            exact (List.perm_middle).trans (hperm.cons i)
      | error e =>
          refine ⟨buildFailureRecord i item e :: f, v, ?_, ?_⟩
          · simp [buildPhase, hrec]
          · simp only [List.map_cons, List.cons_append, List.length_cons,
              List.range'_succ, buildFailureRecord]
            exact hperm.cons i

/-- The one-step unfolding of `groupIntoBatches`. -/
theorem groupIntoBatches_eq {α : Type} (l : List α) (b : Nat) :
    groupIntoBatches l b =
      if l.isEmpty then []
      else if b = 0 then []
      else l.take b :: groupIntoBatches (l.drop b) b := by
  conv_lhs => rw [groupIntoBatches]

/-- The batch shapes produced by `groupIntoBatches` depend only on the
input length. -/
theorem groupIntoBatches_length_eq {α β : Type} (b : Nat) (xs : List α)
    (ys : List β) (h : xs.length = ys.length) :
    (groupIntoBatches xs b).map List.length =
      (groupIntoBatches ys b).map List.length := by
  generalize hn : xs.length = n
  induction n using Nat.strong_induction_on generalizing xs ys with
  | _ n ih =>
    rw [groupIntoBatches_eq xs b, groupIntoBatches_eq ys b]
    by_cases hx : xs.isEmpty
    · have hy : ys.isEmpty = true := by
        rw [List.isEmpty_iff] at hx ⊢
        subst hx
        exact List.length_eq_zero.mp (h.symm.trans (by simp))
      simp [hx, hy]
    · have hy : ¬ ys.isEmpty = true := by
        rw [List.isEmpty_iff] at hx ⊢
        intro hyy
        subst hyy
        simp at h
        exact hx h
      by_cases hb : b = 0
      · simp [hx, hy, hb]
      · simp only [hx, hy, hb, Bool.false_eq_true, if_false, List.map_cons]
        have hxlen : 0 < xs.length := by
          cases xs with
          | nil => simp at hx
          | cons a t => simp
        have htake : (xs.take b).length = (ys.take b).length := by
          simp [List.length_take, h]
        have hdrop : (xs.drop b).length = (ys.drop b).length := by
          simp [List.length_drop, h]
        rw [htake, ih (xs.drop b).length (by simp [List.length_drop]; omega)
          (xs.drop b) (ys.drop b) hdrop rfl]

/-- Reading a list back through `getD` over its index range. -/
theorem range_map_getD (l : List Nat) :
    (List.range l.length).map (fun i => l.getD i 0) = l := by
  induction l with
  | nil => rfl
  | cons a t ih =>
      rw [List.length_cons, List.range_succ_eq_map, List.map_cons,
        List.map_map]
      show a :: (List.range t.length).map (fun i => (a :: t).getD (i + 1) 0) = a :: t
      have : ∀ i, (a :: t).getD (i + 1) 0 = t.getD i 0 := fun i => rfl
      simp only [this, ih]

/-- The item indices of the records emitted for one successful batch
response are exactly the side-table indices of the batch. -/
theorem processBatchResponse_map_itemIndex (resp : BatchResponse)
    (b : List Conversion) (idxs : List Nat) (items : List InputItem)
    (num : Nat) (h : idxs.length = b.length) :
    (processBatchResponse resp b idxs items num).map ResultRecord.itemIndex =
      idxs := by
  unfold processBatchResponse
  rw [List.map_map]
  show (List.range b.length).map (fun i => idxs.getD i 0) = idxs
  rw [← h, range_map_getD]

/-- The item indices of the records emitted for one failed batch are
exactly the side-table indices of the batch. -/
theorem batchFailureRecords_map_itemIndex (b : List Conversion)
    (idxs : List Nat) (items : List InputItem) (e : TypedError) (num : Nat)
    (h : idxs.length = b.length) :
    (batchFailureRecords b idxs items e num).map ResultRecord.itemIndex =
      idxs := by
  unfold batchFailureRecords
  rw [List.map_map]
  show (List.range b.length).map (fun i => idxs.getD i 0) = idxs
  rw [← h, range_map_getD]

/-- In continue mode the batch loop never aborts, and the item indices of
its records are the concatenation of the side-table index batches. -/
theorem runBatches_ok (upload : Nat → Except TypedError BatchResponse)
    (items : List InputItem) (batches : List (List Conversion))
    (idxBatches : List (List Nat)) (k : Nat)
    (hlen : batches.map List.length = idxBatches.map List.length) :
    ∃ res, runBatches upload false items batches idxBatches k = .ok res ∧
      res.map ResultRecord.itemIndex = idxBatches.flatten := by
  induction batches generalizing idxBatches k with
  | nil =>
      have hnil : idxBatches = [] := by
        cases idxBatches with
        | nil => rfl
        | cons a t => simp at hlen
      subst hnil
      exact ⟨[], rfl, rfl⟩
  | cons b bs ih =>
      cases idxBatches with
      | nil => simp at hlen
      | cons idxs idxTail =>
          simp only [List.map_cons, List.cons.injEq] at hlen
          obtain ⟨hlen1, hlenTail⟩ := hlen
          obtain ⟨rest, hrest, hmapRest⟩ := ih idxTail (k + 1) hlenTail
          cases hu : upload k with
          | ok resp =>
              refine ⟨processBatchResponse resp b idxs items (k + 1) ++ rest,
                ?_, ?_⟩
              · simp [runBatches, hu, hrest]
              · rw [List.map_append, hmapRest,
                  processBatchResponse_map_itemIndex resp b idxs items (k + 1)
                    hlen1.symm]
                rfl
          | error e =>
              refine ⟨batchFailureRecords b idxs items e (k + 1) ++ rest,
                ?_, ?_⟩
              · simp [runBatches, hu, hrest]
              · rw [List.map_append, hmapRest,
                  batchFailureRecords_map_itemIndex b idxs items e (k + 1)
                    hlen1.symm]
                rfl

/-- C10: with batch processing enabled and a coordinator mode other than
fail-fast, the run emits exactly one result record per input item:
the multiset of emitted `itemIndex` values is a permutation of
`[0, N)`, so every original index appears in exactly one emitted result
and none appears twice. -/
theorem processBatchItems_one_result_per_item
    (itemOutcomes : List (InputItem × Except TypedError Conversion))
    (upload : Nat → Except TypedError BatchResponse)
    (batchSize : Nat) (mode : String) (hmode : mode ≠ "failFast") :
    ∃ res, processBatchItems itemOutcomes upload batchSize mode = .ok res ∧
      (res.map ResultRecord.itemIndex).Perm
        (List.range itemOutcomes.length) := by
  have hffb : decide (mode = "failFast") = false := by simp [hmode]
  obtain ⟨fails, valids, hbuild, hperm⟩ := buildPhase_ok itemOutcomes 0
  have hrange : List.range' 0 itemOutcomes.length =
      List.range itemOutcomes.length := (List.range_eq_range' _).symm
  rw [hrange] at hperm
  unfold processBatchItems
  dsimp only
  rw [hffb, hbuild]
  dsimp only
  by_cases hempty : (valids.map Prod.snd).isEmpty
  · have hvnil : valids = [] := by
      rcases valids with - | ⟨a, t⟩
      · rfl
      · simp at hempty
    subst hvnil
    simp only [hempty, if_pos]
    refine ⟨fails, rfl, ?_⟩
    simpa using hperm
  · simp only [hempty, Bool.false_eq_true, if_false]
    have hsize : 0 < min (max batchSize 1) 2000 := by
      have h1 : 1 ≤ max batchSize 1 := le_max_right _ _
      omega
    have hlens : (groupIntoBatches (valids.map Prod.snd)
          (min (max batchSize 1) 2000)).map List.length =
        (groupIntoBatches (valids.map Prod.fst)
          (min (max batchSize 1) 2000)).map List.length :=
      groupIntoBatches_length_eq _ _ _ (by simp)
    obtain ⟨bres, hrun, hmap⟩ := runBatches_ok upload
      (itemOutcomes.map Prod.fst)
      (groupIntoBatches (valids.map Prod.snd) (min (max batchSize 1) 2000))
      (groupIntoBatches (valids.map Prod.fst) (min (max batchSize 1) 2000))
      0 hlens
    rw [hrun]
    refine ⟨fails ++ bres, rfl, ?_⟩
    rw [List.map_append, hmap,
      groupIntoBatches_flatten (min (max batchSize 1) 2000) hsize
        (valids.map Prod.fst)]
    exact hperm

theorem processBatchItems_one_result_per_item_witness :
    ∃ res,
      processBatchItems
        [(⟨0⟩, .ok (sampleConversion "a")),
         (⟨1⟩, .error (mkValidationError "GCLID is required" (some "gclid"))),
         (⟨2⟩, .ok (sampleConversion "c"))]
        (fun _ => .ok demoBatchResponse) 2 "partialFailure" = .ok res ∧
      (res.map ResultRecord.itemIndex).Perm (List.range 3) :=
  processBatchItems_one_result_per_item
    [(⟨0⟩, .ok (sampleConversion "a")),
     (⟨1⟩, .error (mkValidationError "GCLID is required" (some "gclid"))),
     (⟨2⟩, .ok (sampleConversion "c"))]
    (fun _ => .ok demoBatchResponse) 2 "partialFailure" (by decide)
